import Mathlib

/-!
Verification development for the DOM Structural Analysis Engine of the
browser-automation-helper repository (ElementAnalyzer and the inspection
session of ElementInspector).

Modelling conventions:
* A document is the subtree rooted at `document.body`: `Doc` holds the body's
  children plus the node data of `body` and `html` (needed only by the
  selector generators, whose ancestor walk continues past the body).
* An element reference is the path of child indices from the body down to the
  node.  Reference identity (`!==` in the source) is path equality; two
  value-equal sibling nodes are still different references.
* `NodeData` carries exactly the observables the analyzer reads from a node:
  `tagName` (canonical upper case, as the DOM reports it for HTML elements),
  the raw `className` attribute string, `id`, `getAttribute("role")`,
  the label `for` attribute, the computed style fields used by the code
  (`display`, `position`, `float`, `cursor`, `flexDirection`), whether an
  onclick handler is present, and the list of attribute names.
* JS numbers appearing in similarity scores are modelled exactly: a score is
  `some (n, d)` for the rational n / d with d > 0, and `none` for NaN (the
  source divides by `Math.max(|classes1|, |classes2|)` with no guard, so both
  class sets empty gives 0 / 0 = NaN, which then propagates through the sum
  and the final division).  All comparisons `> 0.8` / `> 0.5` in the claims
  are far from the float-rounding boundary, so exact rationals are faithful.
* String helpers (`lcStr`, `splitSp`, `isSubList`, `lexLe`) reimplement the
  ASCII behaviour of `toLowerCase`, class-attribute splitting, substring
  regex matching and JS array sort of lower-case tag names; all inputs in
  this development are ASCII.
-/

structure NodeData where
  tagName : String
  className : String
  idAttr : String
  role : Option String
  forAttr : Option String
  display : String
  cssPosition : String
  cssFloat : String
  cursor : String
  flexDirection : String
  hasOnclick : Bool
  attrs : List String
deriving Repr, DecidableEq

inductive DomTree where
  | mk (data : NodeData) (children : List DomTree)

mutual
def decEqDomTree : (a b : DomTree) → Decidable (a = b)
  | .mk d1 cs1, .mk d2 cs2 =>
    if h1 : d1 = d2 then
      match decEqDomForest cs1 cs2 with
      | isTrue h2 => isTrue (by rw [h1, h2])
      | isFalse h => isFalse (fun he => by injection he with hd hc; exact h hc)
    else isFalse (fun he => by injection he with hd hc; exact h1 hd)
def decEqDomForest : (a b : List DomTree) → Decidable (a = b)
  | [], [] => isTrue rfl
  | [], _ :: _ => isFalse (fun h => List.noConfusion h)
  | _ :: _, [] => isFalse (fun h => List.noConfusion h)
  | a :: as, b :: bs =>
    match decEqDomTree a b with
    | isFalse h => isFalse (fun he => by injection he with hh ht; exact h hh)
    | isTrue h1 =>
      match decEqDomForest as bs with
      | isFalse h => isFalse (fun he => by injection he with hh ht; exact h ht)
      | isTrue h2 => isTrue (by rw [h1, h2])
end

instance : DecidableEq DomTree := decEqDomTree

def DomTree.data : DomTree → NodeData
  | .mk d _ => d

def DomTree.children : DomTree → List DomTree
  | .mk _ cs => cs

structure Doc where
  htmlData : NodeData
  bodyData : NodeData
  bodyChildren : List DomTree

/-- Node of the document at a path of child indices below the body.
The empty path (the body itself) is not an element handle in this model. -/
def treeAt : DomTree → List Nat → Option DomTree
  | t, [] => some t
  | t, i :: is =>
    match t.children[i]? with
    | some c => treeAt c is
    | none => none

def elemAt (doc : Doc) : List Nat → Option DomTree
  | [] => none
  | i :: is =>
    match doc.bodyChildren[i]? with
    | some c => treeAt c is
    | none => none

/-- The `children` collection of the node at path `cp`; `[]` denotes the body. -/
def containerChildren (doc : Doc) (cp : List Nat) : List DomTree :=
  match cp with
  | [] => doc.bodyChildren
  | _ :: _ =>
    match elemAt doc cp with
    | some t => t.children
    | none => []

def childrenWithPaths (doc : Doc) (cp : List Nat) : List (List Nat × DomTree) :=
  (containerChildren doc cp).enum.map (fun ic => (cp ++ [ic.1], ic.2))

mutual
def subtreeNodes (path : List Nat) : DomTree → List (List Nat × DomTree)
  | .mk d cs => (path, .mk d cs) :: forestNodes path 0 cs
def forestNodes (base : List Nat) (i : Nat) : List DomTree → List (List Nat × DomTree)
  | [] => []
  | c :: cs => subtreeNodes (base ++ [i]) c ++ forestNodes base (i + 1) cs
end

/-- All strict descendants of the node at `cp` in document (pre-)order, the
search space of `container.querySelector` / `querySelectorAll`. -/
def descendantsWithPaths (doc : Doc) (cp : List Nat) : List (List Nat × DomTree) :=
  forestNodes cp 0 (containerChildren doc cp)

/-- ASCII lower-casing of a character (`String.prototype.toLowerCase` on the
ASCII tag and class strings this development uses). -/
def lcChar (c : Char) : Char :=
  if 65 ≤ c.toNat ∧ c.toNat ≤ 90 then Char.ofNat (c.toNat + 32) else c

def lcStr (s : String) : String := String.mk (s.data.map lcChar)

/-- Split on spaces, dropping empty tokens: the `classList` view of the raw
`class` attribute string. -/
def splitSp (cs : List Char) (cur : List Char) : List String :=
  match cs with
  | [] => if cur.isEmpty then [] else [String.mk cur.reverse]
  | c :: rest =>
    if c = ' ' then
      if cur.isEmpty then splitSp rest [] else String.mk cur.reverse :: splitSp rest []
    else splitSp rest (c :: cur)

def classListOf (className : String) : List String := splitSp className.data []

/-- Substring test: `pat` occurs contiguously in `s` (the fixed-alternative
regex matches of the source are plain substring searches). -/
def isSubList (pat s : List Char) : Bool :=
  match s with
  | [] => pat.isEmpty
  | _ :: rest => pat.isPrefixOf s || isSubList pat rest

def strHasAnyKeyword (s : String) (pats : List String) : Bool :=
  pats.any (fun pat => isSubList pat.data s.data)

/-- Lexicographic comparison by code point: JS default array sort on the
lower-case ASCII tag-name strings it is applied to. -/
def lexLe : List Char → List Char → Bool
  | [], _ => true
  | _ :: _, [] => false
  | a :: as, b :: bs =>
    if a.toNat < b.toNat then true
    else if b.toNat < a.toNat then false
    else lexLe as bs

def insertSorted (x : String) : List String → List String
  | [] => [x]
  | y :: ys => if lexLe x.data y.data then x :: y :: ys else y :: insertSorted x ys

def sortStrings : List String → List String
  | [] => []
  | x :: xs => insertSorted x (sortStrings xs)

/-- `generateStructureSignature`: tag.toLowerCase() ++ "[" ++ className ++ "]"
++ "{" ++ child tags joined by "," ++ "}". -/
def generateStructureSignature (t : DomTree) : String :=
  lcStr t.data.tagName ++ "[" ++ t.data.className ++ "]" ++ "\x7b" ++
    String.intercalate "," (t.children.map (fun c => lcStr c.data.tagName)) ++ "\x7d"

/-- A similarity score: `some (n, d)` is the exact rational n / d (d > 0);
`none` is NaN. -/
abbrev Sim := Option (Nat × Nat)

/-- `calculateSimilarity`: (tagScore + |common classes| / max(|c1|, |c2|)
+ structScore) / 3.  The source has no guard on the division, so when both
class sets are empty the term is 0 / 0 = NaN and the whole score is NaN.
When max(|c1|, |c2|) = m > 0 the exact value of the score is
(tagScore * m + |common| + structScore * m) / (3 * m). -/
def calculateSimilarity (t1 t2 : DomTree) : Sim :=
  let tagScore : Nat := if t1.data.tagName = t2.data.tagName then 1 else 0
  let c1 := (classListOf t1.data.className).eraseDups
  let c2 := (classListOf t2.data.className).eraseDups
  let common := c1.filter (fun c => c2.contains c)
  let m := max c1.length c2.length
  let structScore : Nat :=
    if generateStructureSignature t1 = generateStructureSignature t2 then 1 else 0
  if m = 0 then none
  else some (tagScore * m + common.length + structScore * m, 3 * m)

/-- The rational value of a score, for specification statements. -/
def simVal : Sim → Option ℚ
  | none => none
  | some nd => some ((nd.1 : ℚ) / (nd.2 : ℚ))

/-- `score > 0.8` with JS NaN semantics (NaN comparisons are false);
n / d > 4 / 5 iff 5 n > 4 d. -/
def simGT08 : Sim → Bool
  | none => false
  | some nd => decide (5 * nd.1 > 4 * nd.2)

/-- `score > 0.5` with JS NaN semantics; n / d > 1 / 2 iff 2 n > d. -/
def simGT05 : Sim → Bool
  | none => false
  | some nd => decide (2 * nd.1 > nd.2)

def containerTags : List String :=
  ["div", "section", "article", "main", "aside", "nav",
   "header", "footer", "form", "ul", "ol", "table"]

def layoutClassKeywords : List String :=
  ["container", "wrapper", "content", "layout", "grid", "flex", "list"]

/-- The final check of `isLikelyContainer`: more than one child, and more than
one child sharing tag and full class string with the FIRST child (the source
filters against `children[0]`, which always matches itself). -/
def hasRepeatedFirstChild : List DomTree → Bool
  | [] => false
  | c0 :: rest =>
    decide (1 < (c0 :: rest).length) &&
      decide (1 < ((c0 :: rest).filter (fun c =>
        c.data.tagName == c0.data.tagName &&
          c.data.className == c0.data.className)).length)

/-- `isLikelyContainer`: tag in a fixed set, truthy role in a fixed set,
layout keyword in the lower-cased class string, display flex/grid/table, or
more than one child sharing tag and full class string with the FIRST child
(the source compares every child against `children[0]` only). -/
def isLikelyContainer (t : DomTree) : Bool :=
  if containerTags.contains (lcStr t.data.tagName) then true
  else if (match t.data.role with
           | some r => r != "" && ["group", "list", "grid", "tablist"].contains r
           | none => false) then true
  else if strHasAnyKeyword (lcStr t.data.className) layoutClassKeywords then true
  else if ["flex", "grid", "table"].contains t.data.display then true
  else hasRepeatedFirstChild t.children

def transientClassPrefixes : List String :=
  ["js-", "is-", "has-", "active", "visible", "hidden"]

/-- `getContainerSignature`: tag, then `#id` if present, then `.`-joined
classes with transient-state classes dropped (prefix match, as the anchored
regex of the source), then `[role="..."]` if truthy, then the sorted child
tags in braces. -/
def getContainerSignature (t : DomTree) : String :=
  let tagPart := lcStr t.data.tagName
  let idPart := if t.data.idAttr != "" then "#" ++ t.data.idAttr else ""
  let significant := (classListOf t.data.className).filter
    (fun cls => !(transientClassPrefixes.any (fun p => p.data.isPrefixOf cls.data)))
  let classPart :=
    if 0 < significant.length then "." ++ String.intercalate "." significant else ""
  let rolePart :=
    match t.data.role with
    | some r => if r != "" then "[role=\"" ++ r ++ "\"]" else ""
    | none => ""
  let childPart := "\x7b" ++ String.intercalate ","
    (sortStrings (t.children.map (fun c => lcStr c.data.tagName))) ++ "\x7d"
  tagPart ++ idPart ++ classPart ++ rolePart ++ childPart

/-- `findClosestStructuralContainer`: walk `parentElement` upward while below
the body, return the first likely container, else `document.body` (path []).
The argument is the REVERSED path of the candidate (innermost index first),
which makes the walk structurally recursive. -/
def fcscGo (doc : Doc) : List Nat → List Nat
  | [] => []
  | i :: rest =>
    match elemAt doc ((i :: rest).reverse) with
    | none => []
    | some t => if isLikelyContainer t then (i :: rest).reverse else fcscGo doc rest

def findClosestStructuralContainer (doc : Doc) (p : List Nat) : List Nat :=
  fcscGo doc p.dropLast.reverse

/-- `siblings.filter(s => s !== current && similarity(current, s) > 0.8).length`;
the `!==` exclusion is by position (`selfIdx`) since reference identity is
the position in the parent's child list. -/
def countSimilarSiblings (siblings : List DomTree) (selfIdx : Nat) (cur : DomTree) : Nat :=
  (siblings.enum.filter (fun jc =>
    decide (jc.1 ≠ selfIdx) && simGT08 (calculateSimilarity cur jc.2))).length

/-- The while-loop of `analyzeStructure`: first argument is the REVERSE of the
current node's absolute path (so its head is the node's index in its parent's
children).  A path of length one means the parent is the body and the loop
stops.  `siblings` and `similarSiblings` are overwritten on every level, so
the returned values are those of the topmost ancestor below the body. -/
def structLoop (doc : Doc) : List Nat → DomTree → Nat → Nat → Nat → Option String →
    Nat × Nat × Nat × Option String
  | [], _, depth, sibs, simil, cid => (depth, sibs, simil, cid)
  | [_], _, depth, sibs, simil, cid => (depth, sibs, simil, cid)
  | i :: j :: rest, curT, depth, sibs, simil, cid =>
    match elemAt doc ((j :: rest).reverse) with
    | none => (depth, sibs, simil, cid)
    | some parentT =>
      structLoop doc (j :: rest) parentT (depth + 1) parentT.children.length
        (countSimilarSiblings parentT.children i curT)
        (if isLikelyContainer parentT then some (getContainerSignature parentT) else cid)

structure StructureReport where
  depth : Nat
  siblings : Nat
  similarSiblings : Nat
  children : Nat
  isRepeating : Bool
  containerId : Option String
  patternGroup : Option String
deriving Repr, DecidableEq

/-- `similarSiblings.length > 0` over a container's children, excluding the
original element when (and only when) it is itself a child of the container. -/
def hasSimilarSibling (siblings : List DomTree) (excl : Option Nat) (elemT : DomTree) : Bool :=
  decide (0 < (siblings.enum.filter (fun jc =>
    decide (excl ≠ some jc.1) && simGT08 (calculateSimilarity elemT jc.2))).length)

/-- The while-loop of `identifyPatternGroup`; the argument is the REVERSED
path of the candidate container.  Similarity is always computed against the
original element, and the `sibling !== element` test only ever excludes a
child when the candidate container is the element's own parent. -/
def ipgLoop (doc : Doc) (p : List Nat) (elemT : DomTree) : List Nat → Option String
  | [] => none
  | i :: rest =>
    match elemAt doc ((i :: rest).reverse) with
    | none => none
    | some cont =>
      if isLikelyContainer cont &&
          hasSimilarSibling cont.children
            (if (i :: rest).reverse = p.dropLast then some (p.getLastD 0) else none) elemT then
        some (getContainerSignature cont)
      else ipgLoop doc p elemT rest

def identifyPatternGroup (doc : Doc) (p : List Nat) (elemT : DomTree) : Option String :=
  ipgLoop doc p elemT p.dropLast.reverse

/-- `analyzeStructure` on the element at path `p` with subtree `t`. -/
def analyzeStructure (doc : Doc) (p : List Nat) (t : DomTree) : StructureReport :=
  let res := structLoop doc p.reverse t 0 0 0 none
  { depth := res.1
    siblings := res.2.1
    similarSiblings := res.2.2.1
    children := t.children.length
    isRepeating := decide (0 < res.2.2.1)
    containerId := res.2.2.2
    patternGroup := if 0 < res.2.2.1 then identifyPatternGroup doc p t else none }

inductive RelKind where
  | sibling
  | parent
  | child
  | related
deriving Repr, DecidableEq

/-- `determineRelationship`: same parent, containment (either way), or
`related`.  `el.contains` holds of the element itself and its descendants,
which is path-prefix order. -/
def determineRelationship (p q : List Nat) : RelKind :=
  if p.dropLast = q.dropLast then .sibling
  else if p.isPrefixOf q then .parent
  else if q.isPrefixOf p then .child
  else .related

/-- `findSimilarStructures`: `querySelectorAll(element.tagName)` below the
closest structural container (tag selectors are case-insensitive, hence plain
tag equality), dropping the element itself, keeping equal signatures. -/
def findSimilarStructures (doc : Doc) (p : List Nat) (t : DomTree) (sig : String) :
    List (List Nat × DomTree) :=
  let cp := findClosestStructuralContainer doc p
  (descendantsWithPaths doc cp).filter (fun qc =>
    qc.2.data.tagName == t.data.tagName && decide (qc.1 ≠ p) &&
      (generateStructureSignature qc.2 == sig))

def getContextElements (doc : Doc) (p : List Nat) : List DomTree :=
  containerChildren doc (findClosestStructuralContainer doc p)

/-- `findCommonAttributes`: the attribute names of the first element (a Set,
hence deduplicated in insertion order) restricted to names every other
element also carries. -/
def findCommonAttributes (els : List DomTree) : List String :=
  match els with
  | [] => []
  | e0 :: rest =>
    (e0.data.attrs.eraseDups).filter (fun n => rest.all (fun e2 => e2.data.attrs.contains n))

def detectLayoutPattern (t : DomTree) : Option String :=
  if t.data.display == "flex" then some ("flex-" ++ t.data.flexDirection)
  else if t.data.display == "grid" then some "grid"
  else if t.data.cssPosition == "absolute" || t.data.cssPosition == "fixed" then
    some "positioned"
  else if t.data.cssFloat != "none" then some "float"
  else none

def detectInteractionPattern (t : DomTree) : Option String :=
  if t.data.tagName == "FORM" then some "form"
  else if t.data.tagName == "INPUT" then some "input"
  else if t.data.hasOnclick then some "clickable"
  else if t.data.role == some "button" then some "button"
  else if t.data.cursor == "pointer" then some "clickable"
  else none

structure RepeatingEntry where
  element : List Nat
  similarity : Sim
  relationship : RelKind
deriving Repr, DecidableEq

structure PatternReport where
  repeatingStructures : List RepeatingEntry
  commonAttributes : List String
  layoutPattern : Option String
  interactionPattern : Option String
deriving Repr, DecidableEq

/-- `findPatterns` for the element at path `p` with subtree `t`. -/
def findPatterns (doc : Doc) (p : List Nat) (t : DomTree) : PatternReport :=
  let sig := generateStructureSignature t
  let similar := findSimilarStructures doc p t sig
  { repeatingStructures := similar.map (fun qc =>
      { element := qc.1
        similarity := calculateSimilarity t qc.2
        relationship := determineRelationship p qc.1 })
    commonAttributes := findCommonAttributes (getContextElements doc p)
    layoutPattern := detectLayoutPattern t
    interactionPattern := detectInteractionPattern t }

/-- The analyzer's per-element relationship cache (`WeakMap` keyed by element
reference): an association list keyed by element path. -/
structure AnalyzerState where
  relationshipCache : List (List Nat × List (List Nat))
deriving Repr, DecidableEq

def cacheFind : List (List Nat × List (List Nat)) → List Nat → Option (List (List Nat))
  | [], _ => none
  | kv :: rest, k => if kv.1 == k then some kv.2 else cacheFind rest k

/-- Faults a sub-analysis can raise (exceptions in the source). -/
inductive Fault where
  | typeError (msg : String)
  | syntaxError (msg : String)
deriving Repr, DecidableEq

instance {e a : Type} [DecidableEq e] [DecidableEq a] : DecidableEq (Except e a) :=
  fun x y =>
    match x, y with
    | .ok v, .ok w =>
      if h : v = w then isTrue (by rw [h])
      else isFalse (fun he => by injection he with hv; exact h hv)
    | .ok _, .error _ => isFalse (fun he => Except.noConfusion he)
    | .error _, .ok _ => isFalse (fun he => Except.noConfusion he)
    | .error v, .error w =>
      if h : v = w then isTrue (by rw [h])
      else isFalse (fun he => by injection he with hv; exact h hv)

/-- Instrumentation for the memoization claim: how many container searches
and similarity computations one `findRelationships` call performed. -/
structure ScanCounts where
  containerSearches : Nat
  similarityCalls : Nat
deriving Repr, DecidableEq

def cssIdSafe (idv : String) : Bool :=
  idv.data.all (fun ch => !(ch = '"' || ch = '\\'))

/-- `findSemanticRelationships`.  Faithful fault behaviour: a table cell whose
parent is not a table row reaches `Array.from(row.cells)` with `row.cells`
undefined, a TypeError; an input id containing a quote or backslash makes the
interpolated `label[for="..."]` selector malformed, a SyntaxError.  The label
query is the first LABEL descendant of the container (document order) whose
`for` attribute equals the element's id. -/
def findSemanticRelationships (doc : Doc) (p : List Nat) (t : DomTree) (cp : List Nat) :
    Except Fault (List (List Nat)) := do
  let inputRels ←
    if t.data.tagName == "INPUT" && t.data.idAttr != "" then
      if cssIdSafe t.data.idAttr then
        pure (match (descendantsWithPaths doc cp).find? (fun qc =>
                qc.2.data.tagName == "LABEL" && qc.2.data.forAttr == some t.data.idAttr) with
              | some qc => [qc.1]
              | none => [])
      else throw (Fault.syntaxError "malformed attribute selector")
    else pure []
  let cellRels ←
    if t.data.tagName == "TD" || t.data.tagName == "TH" then
      let rq := p.dropLast
      let rowTag :=
        match rq with
        | [] => "BODY"
        | _ :: _ =>
          match elemAt doc rq with
          | some r => r.data.tagName
          | none => ""
      if rowTag == "TR" then
        pure (((childrenWithPaths doc rq).filter (fun qc =>
          (qc.2.data.tagName == "TD" || qc.2.data.tagName == "TH") &&
            decide (qc.1 ≠ p))).map Prod.fst)
      else throw (Fault.typeError "row.cells is undefined")
    else pure []
  let itemRels ←
    if t.data.tagName == "LI" then
      pure (((childrenWithPaths doc p.dropLast).filter (fun qc =>
        decide (qc.1 ≠ p))).map Prod.fst)
    else pure []
  return inputRels ++ cellRels ++ itemRels

/-- `findRelationships`: cached sequence if present (no scan); otherwise one
container search, one similarity call per non-element child of the container
(`container` is never null, the search defaults to the body), the semantic
relations appended, and the result cached — unless a fault is thrown, in
which case nothing is cached and the fault propagates to the facade. -/
def findRelationships (doc : Doc) (s : AnalyzerState) (p : List Nat) (t : DomTree) :
    Except Fault (List (List Nat)) × AnalyzerState × ScanCounts :=
  match cacheFind s.relationshipCache p with
  | some cached => (Except.ok cached, s, ⟨0, 0⟩)
  | none =>
    let cp := findClosestStructuralContainer doc p
    let others := (childrenWithPaths doc cp).filter (fun qc => decide (qc.1 ≠ p))
    let rels1 := (others.filter (fun qc => simGT05 (calculateSimilarity t qc.2))).map Prod.fst
    match findSemanticRelationships doc p t cp with
    | Except.error f => (Except.error f, s, ⟨1, others.length⟩)
    | Except.ok sem =>
      (Except.ok (rels1 ++ sem), ⟨(p, rels1 ++ sem) :: s.relationshipCache⟩,
        ⟨1, others.length⟩)

/-- One level of the CSS path: `tagname.class1.class2...` (the `.` part only
when `className` is truthy). -/
def cssSeg (d : NodeData) : String :=
  lcStr d.tagName ++
    (if d.className != "" then "." ++ String.intercalate "." (classListOf d.className) else "")

/-- The `while (current)` loop of the analyzer's `generateCssSelector`:
segments are prepended (`unshift`), and a truthy id emits `#id` and stops. -/
def cssWalk : List NodeData → List String → List String
  | [], acc => acc
  | d :: rest, acc =>
    if d.idAttr != "" then ("#" ++ d.idAttr) :: acc
    else cssWalk rest (cssSeg d :: acc)

/-- Node data of the element and its ancestors strictly below the body,
innermost first; the argument is the element's REVERSED path. -/
def cssChain (doc : Doc) : List Nat → List NodeData
  | [] => []
  | i :: rest =>
    match elemAt doc ((i :: rest).reverse) with
    | none => cssChain doc rest
    | some t => t.data :: cssChain doc rest

/-- The analyzer's `generateCssSelector`: the ancestor walk continues through
`body` and `html` (their parents end the loop), joined with " > ". -/
def generateCssSelector (doc : Doc) (p : List Nat) : String :=
  String.intercalate " > "
    (cssWalk (cssChain doc p.reverse ++ [doc.bodyData, doc.htmlData]) [])

/-- 1-based index among preceding siblings with the same tag name. -/
def sameTagIdx (siblings : List DomTree) (i : Nat) (tag : String) : Nat :=
  ((siblings.take i).filter (fun s => s.data.tagName == tag)).length + 1

/-- Chain of (node data, same-tag index) for the element and its ancestors
strictly below the body, innermost first; argument is the REVERSED path. -/
def xpcGo (doc : Doc) : List Nat → List (NodeData × Nat)
  | [] => []
  | i :: rest =>
    match elemAt doc ((i :: rest).reverse) with
    | none => xpcGo doc rest
    | some t =>
      (t.data, sameTagIdx (containerChildren doc rest.reverse) i t.data.tagName) :: xpcGo doc rest

/-- The `while (current)` loop of the analyzer's `generateXPath`. -/
def xpathWalk : List (NodeData × Nat) → List String → List String
  | [], acc => acc
  | di :: rest, acc =>
    if di.1.idAttr != "" then ("//*[@id=\"" ++ di.1.idAttr ++ "\"]") :: acc
    else xpathWalk rest ((lcStr di.1.tagName ++ "[" ++ toString di.2 ++ "]") :: acc)

/-- The analyzer's `generateXPath`: the walk continues through `body` and
`html`; in any real document they are the only children of their tag among
their siblings, hence index 1. -/
def generateXPath (doc : Doc) (p : List Nat) : String :=
  String.intercalate "/"
    (xpathWalk (xpcGo doc p.reverse ++ [(doc.bodyData, 1), (doc.htmlData, 1)]) [])

structure SelectorPair where
  css : String
  xpath : String
deriving Repr, DecidableEq

def generateSelectors (doc : Doc) (p : List Nat) : SelectorPair :=
  { css := generateCssSelector doc p, xpath := generateXPath doc p }

/-- The value passed to `analyzeElement`: null, undefined, some non-HTMLElement
value, or an element reference. -/
inductive JSInput where
  | nullInput
  | undefinedInput
  | nonElementInput
  | element (p : List Nat)
deriving Repr, DecidableEq

/-- The facade's result: `empty` is the literal defensive default
`{structure:{}, patterns:{repeatingStructures:[]}, relationships:[],
selectors:{}}` (whose `structure` is an empty object, not a structure
report), `full` is the composed report. -/
inductive AnalysisReport where
  | empty
  | full (structureR : StructureReport) (patterns : PatternReport)
      (relationships : List (List Nat)) (selectors : SelectorPair)
deriving Repr, DecidableEq

def AnalysisReport.structureOf : AnalysisReport → Option StructureReport
  | .empty => none
  | .full st _ _ _ => some st

def AnalysisReport.relationshipsOf : AnalysisReport → List (List Nat)
  | .empty => []
  | .full _ _ rels _ => rels

/-- `analyzeElement`: the guard returns the empty report on null / undefined /
non-element input; the try/catch returns the empty report if any sub-analysis
faults (in this embedding the only fallible sub-computation is the semantic
relationship step).  A dangling path has no counterpart for a genuine live
element reference and is treated as invalid input.  The function is total:
no exception ever propagates to the caller. -/
def analyzeElement (doc : Doc) (s : AnalyzerState) (v : JSInput) :
    AnalysisReport × AnalyzerState :=
  match v with
  | .element p =>
    match elemAt doc p with
    | none => (.empty, s)
    | some t =>
      match findRelationships doc s p t with
      | (Except.ok rels, s1, _) =>
        (.full (analyzeStructure doc p t) (findPatterns doc p t) rels
          (generateSelectors doc p), s1)
      | (Except.error _, s1, _) => (.empty, s1)
  | _ => (.empty, s)

/-- The inspection-session state of ElementInspector, restricted to the
fields its `start` / `stop` transitions touch, plus the analyzer it owns. -/
structure InspectorState where
  active : Bool
  analyzer : AnalyzerState
  highlightVisible : Bool
  tooltipVisible : Bool
  relatedOverlayCount : Nat
  cursorStyle : String
  listenersAttached : Bool
deriving Repr, DecidableEq

/-- `ElementInspector.stop`: deactivate, restore the cursor, hide the
highlight and tooltip, clear the related overlays, detach the listeners.
The analyzer — and with it the relationship cache — is not touched. -/
def ElementInspector.stop (s : InspectorState) : InspectorState :=
  ⟨false, s.analyzer, false, false, 0, "default", false⟩

/-- `ElementInspector.start`: activate, set the crosshair cursor, attach the
listeners; everything else keeps its value. -/
def ElementInspector.start (s : InspectorState) : InspectorState :=
  ⟨true, s.analyzer, s.highlightVisible, s.tooltipVisible, s.relatedOverlayCount,
    "crosshair", true⟩

/-- Node data with no classes, no id, default computed style. -/
def plainData (tag : String) : NodeData :=
  ⟨tag, "", "", none, none, "block", "static", "none", "auto", "row", false, []⟩

/-- Node data with a class attribute. -/
def classedData (tag cls : String) : NodeData :=
  ⟨tag, cls, "", none, none, "block", "static", "none", "auto", "row", false, ["class"]⟩

/-- Inline node data with no classes (span-like). -/
def inlineData (tag : String) : NodeData :=
  ⟨tag, "", "", none, none, "inline", "static", "none", "auto", "row", false, []⟩

def state0 : AnalyzerState := ⟨[]⟩

/-- One `<li class="item">` of the C4 scenario. -/
def liItem : DomTree := .mk (classedData "LI" "item") []

/-- The `<ul>` with five `<li class="item">` children. -/
def ulC4 : DomTree := .mk (plainData "UL") [liItem, liItem, liItem, liItem, liItem]

def docC4 : Doc := ⟨plainData "HTML", plainData "BODY", [ulC4]⟩

/-- The relationship sequence computed for the third `<li>` of `docC4`:
the four structural siblings, then the same four as list items again. -/
def rels0 : List (List Nat) :=
  [[0, 0], [0, 1], [0, 3], [0, 4], [0, 0], [0, 1], [0, 3], [0, 4]]

def st1 : AnalyzerState := ⟨[([0, 2], rels0)]⟩

/-- A `<td>` whose parent is a `<div>`: `row.cells` is undefined there. -/
def tdElem : DomTree := .mk (plainData "TD") []

def docTd : Doc := ⟨plainData "HTML", plainData "BODY", [.mk (plainData "DIV") [tdElem]]⟩

/-- A `<div id="main">`. -/
def divMain : DomTree :=
  .mk ⟨"DIV", "", "main", none, none, "block", "static", "none", "auto", "row", false, ["id"]⟩ []

def docC5 : Doc := ⟨plainData "HTML", plainData "BODY", [divMain]⟩

/-- A class-less `<span>`. -/
def spanPlain : DomTree := .mk (inlineData "SPAN") []

/-- A class-less `<div>`. -/
def divPlain : DomTree := .mk (plainData "DIV") []

/-- A class-less `<p>`. -/
def pPlain : DomTree := .mk (plainData "P") []

def cexChildP : DomTree := .mk (classedData "P" "a") []

def cexChildQ : DomTree := .mk (classedData "Q" "b") []

/-- A `<span>` (no container tag / role / class / display) whose second and
third children share tag and class while the first child matches nothing. -/
def cexT : DomTree := .mk (inlineData "SPAN") [cexChildP, cexChildQ, cexChildQ]

/-- A `<span>` whose two children both match the first child. -/
def pairT : DomTree := .mk (inlineData "SPAN") [cexChildQ, cexChildQ]

def inspector0 : InspectorState := ⟨false, state0, false, false, 0, "default", false⟩

/-- An active first inspection session in which the relationships of the
third li of `docC4` have been computed (and therefore cached). -/
def sess1 : InspectorState :=
  ⟨true, (findRelationships docC4 state0 [0, 2] liItem).2.1, false, false, 0,
    "crosshair", true⟩


/-- Claim C2 (code bug): the source computes `similarity(E, E)` as
(1 + 0/0 + 1) / 3 = NaN for an element with an empty class set — not 1.0.
For an element with at least one class the score is exactly 1. -/
theorem similarity_self_not_one :
    calculateSimilarity spanPlain spanPlain = none ∧
    simVal (calculateSimilarity spanPlain spanPlain) = none ∧
    simVal (calculateSimilarity liItem liItem) = some 1 := by
  refine ⟨rfl, rfl, ?_⟩
  have h : calculateSimilarity liItem liItem = some (3, 3) := rfl
  rw [h]
  simp [simVal]

/-- Claim C3 (code bug): the class-overlap term `|common| / max(|c1|, |c2|)`
is not special-cased when both class sets are empty: the division is 0 / 0 =
NaN and the total score of such a pair is NaN, not a well-defined number in
[0, 1]. -/
theorem similarity_nan_on_empty_classes :
    calculateSimilarity divPlain pPlain = none ∧
    simVal (calculateSimilarity divPlain pPlain) = none := ⟨rfl, rfl⟩

/-- Claim C1: `analyzeElement` returns the defensive empty report on a null,
undefined or non-element input, and on a valid element for which a
sub-analysis raises a fault; being a total function into `AnalysisReport`, it
never propagates an exception to the caller. -/
theorem analyzeElement_defensive (doc : Doc) (s : AnalyzerState) (v : JSInput) :
    ((∀ q, v ≠ JSInput.element q) →
      analyzeElement doc s v = (AnalysisReport.empty, s)) ∧
    (∀ p t f s1 c, v = JSInput.element p → elemAt doc p = some t →
      findRelationships doc s p t = (Except.error f, s1, c) →
      (analyzeElement doc s v).1 = AnalysisReport.empty) := by
  constructor
  · intro h
    cases v with
    | nullInput => rfl
    | undefinedInput => rfl
    | nonElementInput => rfl
    | element q => exact absurd rfl (h q)
  · intro p t f s1 c hv ht hf
    subst hv
    simp [analyzeElement, ht, hf]

/-- Witness for C1: the null input, and a concrete element (a td whose parent
is a div) for which the semantic relationship step faults. -/
theorem analyzeElement_defensive_witness :
    analyzeElement docTd state0 JSInput.nullInput = (AnalysisReport.empty, state0) ∧
    (analyzeElement docTd state0 (JSInput.element [0, 0])).1 = AnalysisReport.empty := by
  constructor
  · exact (analyzeElement_defensive docTd state0 JSInput.nullInput).1
      (fun q h => JSInput.noConfusion h)
  · exact (analyzeElement_defensive docTd state0 (JSInput.element [0, 0])).2 [0, 0] tdElem
      (Fault.typeError "row.cells is undefined") state0 ⟨1, 0⟩ rfl (by decide) (by decide)

/-- Claim C4: analyzing the third li of a ul with five `li.item` children
yields sibling count 5, similar-sibling count 4, isRepeating, and a
relationship sequence containing the other four li elements. -/
theorem analyzeElement_ul_scenario :
    (analyzeElement docC4 state0 (JSInput.element [0, 2])).1.structureOf.map
        StructureReport.siblings = some 5 ∧
    (analyzeElement docC4 state0 (JSInput.element [0, 2])).1.structureOf.map
        StructureReport.similarSiblings = some 4 ∧
    (analyzeElement docC4 state0 (JSInput.element [0, 2])).1.structureOf.map
        StructureReport.isRepeating = some true ∧
    [0, 0] ∈ (analyzeElement docC4 state0 (JSInput.element [0, 2])).1.relationshipsOf ∧
    [0, 1] ∈ (analyzeElement docC4 state0 (JSInput.element [0, 2])).1.relationshipsOf ∧
    [0, 3] ∈ (analyzeElement docC4 state0 (JSInput.element [0, 2])).1.relationshipsOf ∧
    [0, 4] ∈ (analyzeElement docC4 state0 (JSInput.element [0, 2])).1.relationshipsOf := by
  decide

/-- Claim C5: in the analyzer's `generateCssSelector`, an element carrying a
non-empty id yields exactly `#id` — the walk emits that single segment and
stops at the element itself. -/
theorem generateCssSelector_id_stop (doc : Doc) (p : List Nat) (t : DomTree)
    (h : elemAt doc p = some t) (hid : t.data.idAttr ≠ "") :
    generateCssSelector doc p = "#" ++ t.data.idAttr := by
  have hp : p ≠ [] := by
    intro he
    rw [he] at h
    exact Option.noConfusion h
  obtain ⟨i, rest, hrev⟩ : ∃ i rest, p.reverse = i :: rest := by
    cases hq : p.reverse with
    | nil => exact absurd (by simpa using congrArg List.reverse hq) hp
    | cons i rest => exact ⟨i, rest, rfl⟩
  have hpr : (i :: rest).reverse = p := by
    rw [← hrev, List.reverse_reverse]
  have hchain : cssChain doc p.reverse = t.data :: cssChain doc rest := by
    rw [hrev]
    simp only [cssChain, hpr, h]
  have hbne : (t.data.idAttr != "") = true := bne_iff_ne.mpr hid
  unfold generateCssSelector
  rw [hchain, List.cons_append]
  unfold cssWalk
  rw [hbne]
  rfl

/-- Witness for C5: the div with id `main`. -/
theorem generateCssSelector_id_stop_witness :
    elemAt docC5 [0] = some divMain ∧ divMain.data.idAttr ≠ "" ∧
    generateCssSelector docC5 [0] = "#" ++ divMain.data.idAttr :=
  ⟨by decide, by decide,
    generateCssSelector_id_stop docC5 [0] divMain (by decide) (by decide)⟩

/-- Claim C6 counterexample: for a td whose parent is a div, the Relationship
Finder faults (`row.cells` is undefined): the first call returns no sequence
and caches nothing, and the second consecutive call re-invokes the container
search (count 1, not 0) instead of returning a cached sequence. -/
theorem findRelationships_memo_counterexample :
    (findRelationships docTd state0 [0, 0] tdElem).1 =
      Except.error (Fault.typeError "row.cells is undefined") ∧
    (findRelationships docTd
        (findRelationships docTd state0 [0, 0] tdElem).2.1 [0, 0] tdElem).2.2 =
      ⟨1, 0⟩ := by
  decide

/-- Helper: a Relationship Finder call on an element whose identity is in the
cache returns the cached sequence, leaves the state unchanged and performs no
container search and no similarity computation. -/
theorem findRelationships_cached (doc : Doc) (s : AnalyzerState) (p : List Nat)
    (t : DomTree) (r : List (List Nat))
    (h : cacheFind s.relationshipCache p = some r) :
    findRelationships doc s p t = (Except.ok r, s, ⟨0, 0⟩) := by
  unfold findRelationships
  rw [h]

/-- Claim C6 (amended): whenever a Relationship Finder call completes
normally, its result is cached under the element's identity, and an
immediately following call with the same element and unchanged document
returns the identical sequence from the cache, performing no container search
and no similarity computation. -/
theorem findRelationships_memoized (doc : Doc) (s : AnalyzerState) (p : List Nat)
    (t : DomTree) (r : List (List Nat)) (s1 : AnalyzerState) (c1 : ScanCounts)
    (h : findRelationships doc s p t = (Except.ok r, s1, c1)) :
    findRelationships doc s1 p t = (Except.ok r, s1, ⟨0, 0⟩) ∧
    cacheFind s1.relationshipCache p = some r := by
  have hcached : cacheFind s1.relationshipCache p = some r := by
    unfold findRelationships at h
    cases hc : cacheFind s.relationshipCache p with
    | some v =>
      rw [hc] at h
      injection h with h1 h23
      injection h23 with h2 h3
      injection h1 with hvr
      subst h2
      rw [hc, hvr]
    | none =>
      rw [hc] at h
      dsimp only at h
      cases hm : findSemanticRelationships doc p t
          (findClosestStructuralContainer doc p) with
      | error f =>
        rw [hm] at h
        injection h with h1 h23
        exact Except.noConfusion h1
      | ok sem =>
        rw [hm] at h
        injection h with h1 h23
        injection h23 with h2 h3
        injection h1 with hvr
        subst h2
        simp only [cacheFind, beq_self_eq_true, if_true]
        exact congrArg some hvr
  exact ⟨findRelationships_cached doc s1 p t r hcached, hcached⟩

/-- Witness for C6 (amended): the third li of the five-li ul; the first call
computes and caches `rels0`, the second call returns it with zero scans. -/
theorem findRelationships_memoized_witness :
    findRelationships docC4 st1 [0, 2] liItem = (Except.ok rels0, st1, ⟨0, 0⟩) ∧
    cacheFind st1.relationshipCache [0, 2] = some rels0 :=
  findRelationships_memoized docC4 state0 [0, 2] liItem rels0 st1 ⟨1, 4⟩ (by decide)

/-- Claim C7: in every Structure Report, `isRepeating` holds exactly when the
similar-sibling count is positive, and a pattern-group signature is non-null
only if `isRepeating`. -/
theorem structureReport_invariant (doc : Doc) (p : List Nat) (t : DomTree) :
    ((analyzeStructure doc p t).isRepeating = true ↔
      0 < (analyzeStructure doc p t).similarSiblings) ∧
    ((analyzeStructure doc p t).patternGroup ≠ none →
      (analyzeStructure doc p t).isRepeating = true) := by
  unfold analyzeStructure
  by_cases h : 0 < (structLoop doc p.reverse t 0 0 0 none).2.2.1
  · simp [h]
  · simp [h]

/-- Witness for C7 at a concrete element whose pattern group is non-null. -/
theorem structureReport_invariant_witness :
    ((analyzeStructure docC4 [0, 2] liItem).isRepeating = true ↔
      0 < (analyzeStructure docC4 [0, 2] liItem).similarSiblings) ∧
    (analyzeStructure docC4 [0, 2] liItem).isRepeating = true :=
  ⟨(structureReport_invariant docC4 [0, 2] liItem).1,
    (structureReport_invariant docC4 [0, 2] liItem).2 (by decide)⟩

/-- Claim C8 counterexample: a span with three children whose second and third
children share tag and full class string (a qualifying pair not involving the
first child), yet `isLikelyContainer` returns false — the source compares
children against `children[0]` only. -/
theorem isLikelyContainer_pair_counterexample :
    cexT.children.length = 3 ∧
    (cexT.children[1]?).map (fun c => (c.data.tagName, c.data.className)) =
      some ("Q", "b") ∧
    (cexT.children[2]?).map (fun c => (c.data.tagName, c.data.className)) =
      some ("Q", "b") ∧
    isLikelyContainer cexT = false := by
  decide

/-- Claim C8 (amended): `isLikelyContainer` returns true for every element
with at least two children among which some child other than the first shares
both tag name and full class string with the FIRST child; a matching pair not
involving the first child does not qualify. -/
theorem isLikelyContainer_first_child_match (t c0 c : DomTree) (rest : List DomTree)
    (hch : t.children = c0 :: rest) (hc : c ∈ rest)
    (htag : c.data.tagName = c0.data.tagName)
    (hcls : c.data.className = c0.data.className) :
    isLikelyContainer t = true := by
  have hlast : hasRepeatedFirstChild t.children = true := by
    rw [hch]
    unfold hasRepeatedFirstChild
    rw [Bool.and_eq_true]
    constructor
    · have h0 : 0 < rest.length := List.length_pos.mpr (List.ne_nil_of_mem hc)
      simp only [List.length_cons, decide_eq_true_eq]
      omega
    · have hc0 : (c0.data.tagName == c0.data.tagName &&
          c0.data.className == c0.data.className) = true := by simp
      have hcmem : c ∈ rest.filter (fun x =>
          x.data.tagName == c0.data.tagName && x.data.className == c0.data.className) :=
        List.mem_filter.mpr ⟨hc, by simp [htag, hcls]⟩
      have hlen : 0 < (rest.filter (fun x =>
          x.data.tagName == c0.data.tagName &&
            x.data.className == c0.data.className)).length :=
        List.length_pos.mpr (List.ne_nil_of_mem hcmem)
      simp only [List.filter_cons, hc0, if_true, eq_self_iff_true, List.length_cons,
        decide_eq_true_eq]
      omega
  unfold isLikelyContainer
  split
  · rfl
  · split
    · rfl
    · split
      · rfl
      · split
        · rfl
        · exact hlast

/-- Witness for C8 (amended): a span whose second child matches the first. -/
theorem isLikelyContainer_first_child_match_witness :
    isLikelyContainer pairT = true :=
  isLikelyContainer_first_child_match pairT cexChildQ cexChildQ [cexChildQ] rfl
    (List.mem_singleton.mpr rfl) rfl rfl

/-- Claim C9 (amended): the inspector's stop transition does NOT invalidate
the per-element relationship cache: the analyzer — and with it every cached
entry — survives `stop` and a subsequent `start` unchanged. -/
theorem stop_preserves_relationshipCache (s : InspectorState) :
    (ElementInspector.stop s).analyzer = s.analyzer ∧
    (ElementInspector.start (ElementInspector.stop s)).analyzer = s.analyzer :=
  ⟨rfl, rfl⟩

/-- Claim C9 counterexample: a first session caches the relationships of the
third li; `stop` leaves the entry in place, and after a new `start` the
second-session call is answered from the first session's cache with no scan —
so a later session does observe a sequence cached during an earlier one. -/
theorem sessionCache_counterexample :
    (ElementInspector.stop sess1).analyzer.relationshipCache ≠ [] ∧
    cacheFind
      (ElementInspector.start (ElementInspector.stop sess1)).analyzer.relationshipCache
      [0, 2] = some rels0 ∧
    findRelationships docC4
      (ElementInspector.start (ElementInspector.stop sess1)).analyzer [0, 2] liItem =
      (Except.ok rels0, st1, ⟨0, 0⟩) := by
  decide

/-- Claim C10: for an element whose parent is the document body the ancestor
walk never runs: depth, sibling count and similar-sibling count are 0,
`isRepeating` is false and the pattern group is null, whatever the document
and however many siblings the element actually has. -/
theorem analyzeStructure_body_child (doc : Doc) (i : Nat) (t : DomTree) :
    analyzeStructure doc [i] t =
      ⟨0, 0, 0, t.children.length, false, none, none⟩ := rfl
